import Mathlib

/-!
# Verification of the `builders` package of lambda-builder

A shallow embedding, in Lean 4, of the build pipeline implemented in
`src/builders/main.go`, together with proofs about the embedded code.

Pure computations (Dockerfile template rendering, image resolution,
decimal formatting) are translated as Lean functions. Effectful code
(`executeBuilder` and its stages) is translated as a function over an
explicit `World` of oracle outcomes for the external effects (the docker
container run, filesystem probes, file writes, archive extraction),
returning the pipeline outcome together with a `Trace` recording
observable side effects. Every fallible Go call is modelled with
`Except`/`Option`; a Go runtime panic is a distinguished outcome.
-/

namespace LambdaBuilder

/-! ## Decimal formatting: model of Go `strconv.Itoa`

`generateDockerfile` passes `strconv.Itoa(config.Port)` into the template
data map. We model base-10 formatting with an accumulator loop that is
structurally recursive on a fuel argument (mirroring the digit loop of
the library routine), so that it evaluates inside the kernel.
-/

/-- Digit-accumulator loop: prepends the decimal digits of `n` (least
significant digit processed first) onto `acc`. `fuel` bounds the number of
iterations; `fuel = n + 1` is always sufficient. -/
def natReprAux : Nat → Nat → List Char → List Char
  | 0, _, acc => acc
  | fuel+1, n, acc =>
    if n / 10 = 0 then Nat.digitChar (n % 10) :: acc
    else natReprAux fuel (n / 10) (Nat.digitChar (n % 10) :: acc)

/-- Decimal representation of a natural number, e.g. `natRepr 80 = "80"`. -/
def natRepr (n : Nat) : String := String.mk (natReprAux (n+1) n [])

/-- Model of Go `strconv.Itoa`: signed base-10 decimal formatting. -/
def itoa (i : Int) : String :=
  if i < 0 then "-" ++ natRepr (-i).toNat else natRepr i.toNat

theorem digitChar_isDigit : ∀ d, d < 10 → (Nat.digitChar d).isDigit = true := by decide

theorem digitChar_eq_one : ∀ d, d < 10 → Nat.digitChar d = '1' → d = 1 := by decide

/-- Every character produced by the digit loop is a decimal digit (provided
the characters already in the accumulator are). -/
theorem natReprAux_isDigit : ∀ fuel n acc, (∀ c ∈ acc, c.isDigit = true) →
    ∀ c ∈ natReprAux fuel n acc, c.isDigit = true := by
  intro fuel
  induction fuel with
  | zero => intro n acc hacc; simpa [natReprAux] using hacc
  | succ fuel ih =>
    intro n acc hacc c hc
    have hd : (Nat.digitChar (n % 10)).isDigit = true :=
      digitChar_isDigit _ (Nat.mod_lt _ (by decide))
    rw [natReprAux] at hc
    by_cases h0 : n / 10 = 0
    · simp only [h0, if_pos rfl] at hc
      rcases List.mem_cons.mp hc with hc | hc
      · exact hc ▸ hd
      · exact hacc c hc
    · simp only [if_neg h0] at hc
      refine ih (n / 10) (Nat.digitChar (n % 10) :: acc) ?_ c hc
      intro c' hc'
      rcases List.mem_cons.mp hc' with hc' | hc'
      · exact hc' ▸ hd
      · exact hacc c' hc'

/-- With sufficient fuel, the digit loop returns the single-character list
`['1']` only when the accumulator was empty and the input was `1`. -/
theorem natReprAux_eq_single_one : ∀ fuel, 1 ≤ fuel → ∀ n acc, n < 10 ^ fuel →
    natReprAux fuel n acc = ['1'] → acc = [] ∧ n = 1 := by
  intro fuel
  induction fuel with
  | zero => intro h; exact absurd h (by decide)
  | succ fuel ih =>
    intro _ n acc hlt heq
    rw [natReprAux] at heq
    by_cases h0 : n / 10 = 0
    · rw [if_pos h0] at heq
      obtain ⟨hc, hacc⟩ := List.cons.inj heq
      refine ⟨hacc, ?_⟩
      have hm : n % 10 = 1 := digitChar_eq_one _ (Nat.mod_lt _ (by decide)) hc
      omega
    · rw [if_neg h0] at heq
      have hge : 10 ≤ n := by
        by_contra hlt10
        exact h0 (Nat.div_eq_of_lt (by omega))
      have hfuel : 1 ≤ fuel := by
        rcases Nat.eq_zero_or_pos fuel with hf | hf
        · subst hf
          have h10 : (10:Nat) ^ (0 + 1) = 10 := by norm_num
          rw [h10] at hlt
          omega
        · exact hf
      have hlt' : n / 10 < 10 ^ fuel :=
        Nat.div_lt_of_lt_mul (by rw [← pow_succ']; exact hlt)
      have := ih hfuel (n / 10) (Nat.digitChar (n % 10) :: acc) hlt' heq
      exact absurd this.1 (by simp)

theorem nat_lt_ten_pow_succ (n : Nat) : n < 10 ^ (n + 1) :=
  calc n < 10 ^ n := Nat.lt_pow_self (by decide) n
  _ ≤ 10 ^ (n+1) := Nat.pow_le_pow_right (by decide) (Nat.le_succ n)

/-- `natRepr` yields `"1"` only at `1`. -/
theorem natRepr_eq_one {n : Nat} (h : natRepr n = "1") : n = 1 := by
  have : natReprAux (n+1) n [] = ['1'] := by
    have := congrArg String.data h
    simpa [natRepr] using this
  exact (natReprAux_eq_single_one (n+1) (by omega) n [] (nat_lt_ten_pow_succ n) this).2

/-- `natRepr` never yields a string starting with the minus sign. -/
theorem natRepr_ne_neg_one (n : Nat) : natRepr n ≠ "-1" := by
  intro h
  have hdata : natReprAux (n+1) n [] = ['-', '1'] := by
    have := congrArg String.data h
    simpa [natRepr] using this
  have : ('-' : Char).isDigit = true := by
    refine natReprAux_isDigit (n+1) n [] (by simp) '-' ?_
    rw [hdata]; simp
  exact absurd this (by decide)

/-- The formatted port equals the sentinel string `"-1"` exactly when the
port is the sentinel value `-1`. -/
theorem itoa_eq_neg_one_iff (i : Int) : itoa i = "-1" ↔ i = -1 := by
  constructor
  · intro h
    rw [itoa] at h
    by_cases hneg : i < 0
    · rw [if_pos hneg] at h
      have hdata := congrArg String.data h
      simp only [String.data_append] at hdata
      have h1 : (natRepr (-i).toNat).data = ['1'] := by simpa using hdata
      have : natRepr (-i).toNat = "1" := String.ext h1
      have := natRepr_eq_one this
      omega
    · rw [if_neg hneg] at h
      exact absurd h (natRepr_ne_neg_one _)
  · intro h
    subst h
    decide

/-! ## Data model

`Config` and `LambdaYML` are direct transcriptions of the structs in
`src/builders/main.go`. The Go `map[string]string` field `HandlerMap` is
embedded as an association list; none of the verified code paths read it.
-/

/-- The resolved build configuration (struct `Config`). -/
structure Config where
  BuildEnv : List String
  Builder : String
  BuilderBuildImage : String
  BuilderRunImage : String
  GenerateRunImage : Bool
  Handler : String
  HandlerMap : List (String × String)
  Identifier : String
  ImageEnv : List String
  ImageLabels : List String
  ImageTag : String
  Port : Int
  RunQuiet : Bool
  WorkingDirectory : String
  WriteProcfile : Bool
deriving DecidableEq, Repr

/-- The optional per-project override document (struct `LambdaYML`),
with fields `builder`, `build_image` and `run_image`. -/
structure LambdaYML where
  Builder : String
  BuildImage : String
  RunImage : String
deriving DecidableEq, Repr

/-- The Go zero value of `LambdaYML`: all fields empty. -/
def LambdaYML.zero : LambdaYML := ⟨"", "", ""⟩

/-- Oracle for the state of `lambda.yml` in the working directory, as
observed by `ParseLambdaYML`: the file may be absent
(`io.FileExistsInDirectory` reports false), may fail to open or read, may
hold bytes that `yaml.Unmarshal` rejects, or may parse into a document.
The `msg` payloads stand for the messages of the wrapped library errors. -/
inductive LambdaYMLSource where
  | absent
  | openFailure (msg : String)
  | readFailure (msg : String)
  | unmarshalFailure (msg : String)
  | parsed (doc : LambdaYML)
deriving DecidableEq, Repr

/-- `ParseLambdaYML` from `src/builders/main.go`: when no `lambda.yml`
exists in the working directory it returns the zero document and no
error; open, read and unmarshal failures are wrapped and returned. The
`src` argument is the filesystem oracle for the working directory of
`config`. -/
def ParseLambdaYML (config : Config) (src : LambdaYMLSource) : Except String LambdaYML :=
  match config, src with
  | _, .absent => .ok LambdaYML.zero
  | _, .openFailure m => .error ("error opening lambda.yml: " ++ m)
  | _, .readFailure m => .error ("error reading lambda.yml: " ++ m)
  | _, .unmarshalFailure m => .error ("error unmarshaling lambda.yml: " ++ m)
  | _, .parsed doc => .ok doc

/-- `getBuildImage` from `src/builders/main.go`: an explicit
`config.BuilderBuildImage` wins outright (the override document is not
even read); otherwise a non-empty `build_image` from `lambda.yml` wins
over the compiled-in `defaultImage`. -/
def getBuildImage (config : Config) (src : LambdaYMLSource) (defaultImage : String) :
    Except String String :=
  if config.BuilderBuildImage ≠ "" then .ok config.BuilderBuildImage
  else
    match ParseLambdaYML config src with
    | .error e => .error e
    | .ok lambdaYML =>
      if lambdaYML.BuildImage = "" then .ok defaultImage
      else .ok lambdaYML.BuildImage

/-- `getRunImage` from `src/builders/main.go`: same resolution as
`getBuildImage`, over the run-image fields. -/
def getRunImage (config : Config) (src : LambdaYMLSource) (defaultImage : String) :
    Except String String :=
  if config.BuilderRunImage ≠ "" then .ok config.BuilderRunImage
  else
    match ParseLambdaYML config src with
    | .error e => .error e
    | .ok lambdaYML =>
      if lambdaYML.RunImage = "" then .ok defaultImage
      else .ok lambdaYML.RunImage

/-- The document carried by a successfully-read override source: the
parsed document, or the zero document when the file is absent. -/
def sourceDoc : LambdaYMLSource → LambdaYML
  | .parsed doc => doc
  | _ => LambdaYML.zero

/-- Sources on which `ParseLambdaYML` succeeds: the file is absent or
parses cleanly. -/
def parseOk (src : LambdaYMLSource) : Prop :=
  src = .absent ∨ ∃ doc, src = .parsed doc

/-! ## Dockerfile rendering

`generateDockerfile` renders its document through `html/template`. The
template text contains no `<`, so every action sits in the HTML text
context and its value is rendered through the plain HTML escaper
(`&`, `<`, `>`, `"`, `'` and NUL are replaced). The function below is the
transcription of the template of `src/builders/main.go` lines 165-178
applied to the data map of lines 183-188; literal text between actions is
reproduced verbatim, including all newlines.
-/

/-- The replacement performed by html/template's text-context escaper on
one character. -/
def htmlEscapeChar (c : Char) : String :=
  if c = Char.ofNat 0 then "�"
  else if c = '"' then "&#34;"
  else if c = Char.ofNat 39 then "&#39;"
  else if c = '&' then "&amp;"
  else if c = '<' then "&lt;"
  else if c = '>' then "&gt;"
  else String.singleton c

/-- html/template's text-context HTML escaper applied to a whole string. -/
def htmlEscape (s : String) : String :=
  String.join (s.data.map htmlEscapeChar)

/-- The string-valued entries of the template data map built by
`generateDockerfile` (lines 183-188): keys `cmd`, `port` and `run_image`.
The fourth entry, `env`, holds a list, is consumed only by the `range`
action, and is embedded separately (`envBlock`). Note that the map has no
key `command`, although the template's guard for the `CMD` line reads
`.command`. -/
def dockerfileData (cmd : String) (config : Config) (key : String) : Option String :=
  if key = "cmd" then some cmd
  else if key = "port" then some (itoa config.Port)
  else if key = "run_image" then some config.BuilderRunImage
  else none

/-- Go text/template's `ne` applied to a data-map field and a string
literal. A missing key evaluates to the invalid (zero) reflect value;
since Go 1.18 `eq` reports `false` for a comparison in which one operand
is the zero value instead of returning an error, so `ne` on a missing
key is `true`. -/
def tmplNe (v : Option String) (s : String) : Bool :=
  match v with
  | some x => x != s
  | none => true

/-- The body of the `range .env` action: one `ENV` line per entry, in
input order, each value HTML-escaped. -/
def envBlock : List String → String
  | [] => ""
  | e :: rest => "\nENV " ++ htmlEscape e ++ "\n" ++ envBlock rest

/-- The two port environment lines emitted when the port guard holds. -/
def portEnvBlock (port : String) : String :=
  "\nENV DOCKER_LAMBDA_API_PORT=" ++ htmlEscape port ++
  "\nENV DOCKER_LAMBDA_RUNTIME_PORT=" ++ htmlEscape port ++ "\n"

/-- `generateDockerfile` from `src/builders/main.go`: the text rendered
by the template into the temporary Dockerfile. (In Go the function
writes this text to the supplied file handle and can fail only when that
write fails; the write outcome is an oracle of the pipeline model.) -/
def generateDockerfile (cmd : String) (config : Config) : String :=
  "\nFROM " ++ htmlEscape config.BuilderRunImage ++ "\n" ++
  (if tmplNe (dockerfileData cmd config "port") "-1" then
    portEnvBlock (itoa config.Port)
   else "") ++
  "\n" ++
  envBlock config.ImageEnv ++
  "\n" ++
  (if tmplNe (dockerfileData cmd config "command") "" then
    "\nCMD [\"" ++ htmlEscape cmd ++ "\"]\n"
   else "") ++
  "\n" ++
  "COPY . /var/task\n"

/-- The rendered document as a function of its four interpolated inputs,
with the port block abstracted out. `config.Port` does not occur: whatever
surrounds the `portBlock` argument is untouched by the port. The `CMD`
line is unconditional here, reflecting that the template's guard tests
the absent key `command` and therefore always holds. -/
def dockerfileShape (cmd runImage : String) (env : List String) (portBlock : String) : String :=
  "\nFROM " ++ htmlEscape runImage ++ "\n" ++
  portBlock ++
  "\n" ++
  envBlock env ++
  "\n" ++
  ("\nCMD [\"" ++ htmlEscape cmd ++ "\"]\n") ++
  "\n" ++
  "COPY . /var/task\n"

/-- Unfolding of the renderer into its shape: the port block is present
exactly when the port differs from the sentinel `-1`. -/
theorem generateDockerfile_shape (cmd : String) (config : Config) :
    generateDockerfile cmd config =
      dockerfileShape cmd config.BuilderRunImage config.ImageEnv
        (if config.Port = -1 then "" else portEnvBlock (itoa config.Port)) := by
  rw [generateDockerfile, dockerfileShape]
  have hport : dockerfileData cmd config "port" = some (itoa config.Port) := rfl
  have hcommand : dockerfileData cmd config "command" = none := rfl
  rw [hport, hcommand]
  by_cases hp : config.Port = -1
  · have h1 : itoa config.Port = "-1" := (itoa_eq_neg_one_iff _).mpr hp
    rw [if_neg (by simp [tmplNe, h1]), if_pos (by simp [tmplNe]), if_pos hp]
  · have h1 : itoa config.Port ≠ "-1" := fun h => hp ((itoa_eq_neg_one_iff _).mp h)
    rw [if_pos (by simp [tmplNe, h1]), if_pos (by simp [tmplNe]), if_neg hp]

/-! ## The build pipeline

`executeBuilder` coordinates external effects: the docker sandbox run,
temp-directory creation, archive extraction, handler detection, Procfile
writes, temp-file creation, the Dockerfile write and the image build.
Each effect's outcome is an oracle field of `World`; the function below
is the transcription of `executeBuilder`'s control flow over those
oracles. The `Trace` records the side effects the claims observe.
-/

/-- The error sites of the pipeline, one constructor per `fmt.Errorf`
site in `src/builders/main.go` (messages quoted in comments). -/
inductive BuilderError where
  /-- "error executing builder: %w" — the sandbox failed to launch. -/
  | buildExecution
  /-- "error executing builder, exit code %d" — sandbox exited non-zero. -/
  | buildFailed (exitCode : Int)
  /-- "error creating build dir: %w" — `os.MkdirTemp` failed. -/
  | createBuildDir
  /-- "error extracting lambda.zip into build context dir: %w". -/
  | extraction
  /-- "error writing Procfile to working directory: %w". -/
  | procfileWorkdir
  /-- "error writing Procfile to temporary build directory: %w". -/
  | procfileBuilddir
  /-- "error generating temporary Dockerfile: %w" — constructed at line
  113 but never observed by a caller: the deferred cleanup registered on
  line 108 panics first (see `imageStage`). -/
  | tempDockerfile
  /-- "error writing Dockerfile: %s" — `tpl.Execute` failed to write. -/
  | dockerfileWrite
  /-- "error building image: %w" — `docker image build` failed to launch. -/
  | imageBuildLaunch
  /-- "error building image, exit code %d". -/
  | imageBuildFailed (exitCode : Int)
deriving DecidableEq, Repr

/-- How one invocation of `executeBuilder` terminates. A Go runtime panic
(an unrecovered nil-pointer dereference) is distinguished from an error
return. -/
inductive Outcome where
  | success
  | failure (e : BuilderError)
  | panicked
deriving DecidableEq, Repr

/-- The two directories `executeBuilder` writes a Procfile into. -/
inductive ProcfileTarget where
  | workingDirectory
  | buildDirectory
deriving DecidableEq, Repr

/-- Observable side effects of one pipeline run: whether `extract.Zip`
was invoked, every Procfile line written (target and content, in write
order), and whether `docker image build` was invoked. -/
structure Trace where
  extractAttempted : Bool
  procfileWrites : List (ProcfileTarget × String)
  imageBuildAttempted : Bool
deriving DecidableEq, Repr

/-- The trace of a run that aborted before extraction. -/
def Trace.empty : Trace := ⟨false, [], false⟩

/-- Oracle outcomes for the external effects of one pipeline run. -/
structure World where
  /-- `docker container run`: `none` when the launch itself fails
  (`cmd.Execute` returns an error), `some c` when the sandbox runs and
  exits with code `c`. -/
  containerRun : Option Int
  /-- `os.MkdirTemp("", "lambda-builder")` succeeds. -/
  mkdirTempOk : Bool
  /-- The bytes at `<workdir>/lambda.zip` form an archive that
  `extract.Zip` accepts. The pipeline discards the `ioutil.ReadFile`
  error (`data, _ := ...`), so a missing or unreadable archive reaches
  `extract.Zip` as empty bytes — an invalid archive — and is covered by
  this oracle being false. -/
  zipValid : Bool
  /-- Result of `getFunctionHandler(taskHostBuildDir, config)` (defined
  outside `src/builders/main.go`); empty when no handler was detected. -/
  detectedHandler : String
  /-- A `Procfile` exists in `config.WorkingDirectory`. `executeBuilder`
  never consults this; it is carried so that statements about the working
  directory can be expressed. -/
  workdirHasProcfile : Bool
  /-- `io.FileExistsInDirectory(taskHostBuildDir, "Procfile")`: a
  `Procfile` exists in the extracted build directory. -/
  builddirHasProcfile : Bool
  /-- The Procfile write into the working directory succeeds. -/
  procfileWorkdirWriteOk : Bool
  /-- The Procfile write into the build directory succeeds. -/
  procfileBuilddirWriteOk : Bool
  /-- `ioutil.TempFile("", "lambda-builder")` succeeds (returns a usable
  `*os.File`); on failure it returns a nil handle and an error. -/
  tempFileOk : Bool
  /-- `tpl.Execute` succeeds in writing the rendered Dockerfile. -/
  dockerfileWriteOk : Bool
  /-- `docker image build`: `none` when the launch fails, `some c` when
  it exits with code `c`. -/
  imageBuild : Option Int
deriving DecidableEq, Repr

/-- `executeBuildContainer` from `src/builders/main.go`: launches the
sandbox and translates its exit status; a non-zero exit code `c` becomes
the error "error executing builder, exit code c". -/
def executeBuildContainer (script : String) (config : Config) (w : World) :
    Except BuilderError Unit :=
  match script, config, w.containerRun with
  | _, _, none => .error .buildExecution
  | _, _, some exitCode =>
    if exitCode ≠ 0 then .error (.buildFailed exitCode) else .ok ()

/-- Modelled from the spec: `writeProcfile` (defined outside
`src/builders/main.go`) writes the single process-declaration line
`web: <handler>`; both calls in `executeBuilder` pass the same resolved
handler, so both targets receive this same line. -/
def procfileLine (handler : String) : String := "web: " ++ handler

/-- Lines 85-101 of `src/builders/main.go`: the Procfile step. Active
only when `config.WriteProcfile` holds and no `Procfile` exists in the
extracted build directory (`taskHostBuildDir` — the working directory is
not consulted); an empty handler only prints a warning. On a write
failure the step aborts, keeping any earlier write in the trace. -/
def procfileStage (handler : String) (config : Config) (w : World) (t : Trace) :
    Option BuilderError × Trace :=
  if config.WriteProcfile && !w.builddirHasProcfile then
    if handler = "" then (none, t)
    else if !w.procfileWorkdirWriteOk then (some .procfileWorkdir, t)
    else
      let t1 := { t with procfileWrites :=
        t.procfileWrites ++ [(ProcfileTarget.workingDirectory, procfileLine handler)] }
      if !w.procfileBuilddirWriteOk then (some .procfileBuilddir, t1)
      else (none, { t1 with procfileWrites :=
        t1.procfileWrites ++ [(ProcfileTarget.buildDirectory, procfileLine handler)] })
  else (none, t)

/-- Lines 103-124 of `src/builders/main.go`: the run-image step. When
`ioutil.TempFile` fails it returns a nil `*os.File`; the cleanup
`os.Remove(dockerfilePath.Name())` was already deferred on line 108,
before the error check on line 112, so the error return triggers a
nil-pointer dereference inside the deferred call — the invocation
panics instead of returning the error. -/
def imageStage (_handler : String) (config : Config) (w : World) (t : Trace) :
    Outcome × Trace :=
  if config.GenerateRunImage then
    if !w.tempFileOk then (.panicked, t)
    else if !w.dockerfileWriteOk then (.failure .dockerfileWrite, t)
    else
      match w.imageBuild with
      | none => (.failure .imageBuildLaunch, { t with imageBuildAttempted := true })
      | some exitCode =>
        if exitCode ≠ 0 then
          (.failure (.imageBuildFailed exitCode), { t with imageBuildAttempted := true })
        else (.success, { t with imageBuildAttempted := true })
  else (.success, t)

/-- `executeBuilder` from `src/builders/main.go`: the pipeline. Runs the
sandbox, creates the scratch directory, extracts `lambda.zip`, resolves
the handler, conditionally writes Procfiles, and conditionally builds
the run image. -/
def executeBuilder (script : String) (config : Config) (w : World) : Outcome × Trace :=
  match executeBuildContainer script config w with
  | .error e => (.failure e, Trace.empty)
  | .ok _ =>
    if !w.mkdirTempOk then (.failure .createBuildDir, Trace.empty)
    else
      let t0 : Trace := { extractAttempted := true, procfileWrites := [],
                          imageBuildAttempted := false }
      if !w.zipValid then (.failure .extraction, t0)
      else
        let handler := w.detectedHandler
        match procfileStage handler config w t0 with
        | (some e, t) => (.failure e, t)
        | (none, t) => imageStage handler config w t

/-! ## Substring search (used to state containment of rendered lines) -/

/-- `pat` occurs at the start of `s`. -/
def charsStart : List Char → List Char → Bool
  | [], _ => true
  | _ :: _, [] => false
  | p :: ps, c :: cs => p == c && charsStart ps cs

/-- `pat` occurs somewhere in `s`. -/
def charsContain (pat : List Char) : List Char → Bool
  | [] => charsStart pat []
  | c :: cs => charsStart pat (c :: cs) || charsContain pat cs

/-- `s` contains `pat` as a contiguous substring. -/
def strContains (s pat : String) : Bool := charsContain pat.data s.data

/-! ## Sample configurations and worlds used in concrete statements -/

/-- A configuration with run-image generation enabled, sentinel port,
no runtime environment entries and Procfile writing disabled. -/
def cfgEmptyHandler : Config :=
  { BuildEnv := [], Builder := "go", BuilderBuildImage := "", BuilderRunImage := "runimage",
    GenerateRunImage := true, Handler := "", HandlerMap := [], Identifier := "id",
    ImageEnv := [], ImageLabels := [], ImageTag := "", Port := -1, RunQuiet := false,
    WorkingDirectory := "/app", WriteProcfile := false }

/-- `cfgEmptyHandler` with Procfile writing enabled and run-image
generation disabled. -/
def cfgProcfile : Config :=
  { cfgEmptyHandler with WriteProcfile := true, GenerateRunImage := false }

/-- `cfgEmptyHandler` with no explicit image references. -/
def cfgNoImages : Config := { cfgEmptyHandler with BuilderRunImage := "" }

/-- `cfgEmptyHandler` with values containing HTML-special characters and
a concrete port. -/
def cfgEscape : Config :=
  { cfgEmptyHandler with BuilderRunImage := "img&co", ImageEnv := ["A=<b>"], Port := 8080 }

/-- A world in which every external effect succeeds and the detected
handler is `main`. -/
def worldOk : World :=
  { containerRun := some 0, mkdirTempOk := true, zipValid := true, detectedHandler := "main",
    workdirHasProcfile := false, builddirHasProcfile := false, procfileWorkdirWriteOk := true,
    procfileBuilddirWriteOk := true, tempFileOk := true, dockerfileWriteOk := true,
    imageBuild := some 0 }

/-- A world whose working directory already holds a `Procfile` while the
extracted build directory does not. -/
def worldProcfile : World :=
  { worldOk with workdirHasProcfile := true, detectedHandler := "app.handler" }

/-- A world whose sandbox run exits with code 2. -/
def worldExit2 : World := { worldOk with containerRun := some 2 }

/-- A world in which the archive is missing or corrupt. -/
def worldBadZip : World := { worldOk with zipValid := false }

/-- A world in which `ioutil.TempFile` fails. -/
def worldTempFileFail : World := { worldOk with tempFileOk := false }

/-- A sample parsed override document with empty builder name. -/
def docImages : LambdaYML := ⟨"", "yml-build", "yml-run"⟩

/-! ## Helper lemmas about the pipeline stages -/

/-- The run-image stage never touches the Procfile writes of the trace. -/
theorem imageStage_procfileWrites (handler : String) (config : Config) (w : World)
    (t : Trace) : (imageStage handler config w t).2.procfileWrites = t.procfileWrites := by
  rw [imageStage]
  rcases w.imageBuild with _ | c
  · split_ifs <;> rfl
  · split_ifs <;> try rfl
    by_cases hc : c = 0 <;> simp [hc]

/-- With both write oracles succeeding, the Procfile stage returns no
error and appends exactly the two writes when active, none otherwise. -/
theorem procfileStage_writes (handler : String) (config : Config) (w : World)
    (hw : w.procfileWorkdirWriteOk = true) (hb : w.procfileBuilddirWriteOk = true) :
    procfileStage handler config w ⟨true, [], false⟩ =
      (none, ⟨true,
        (if config.WriteProcfile = true ∧ w.builddirHasProcfile = false ∧ handler ≠ "" then
          [(ProcfileTarget.workingDirectory, procfileLine handler),
           (ProcfileTarget.buildDirectory, procfileLine handler)]
         else []), false⟩) := by
  rw [procfileStage]
  by_cases hwp : config.WriteProcfile <;> by_cases hbd : w.builddirHasProcfile <;>
    by_cases hh : handler = "" <;> simp [hwp, hbd, hh, hw, hb]

/-- Everything of the rendered document before the environment block. -/
def dockerfilePre (config : Config) : String :=
  "\nFROM " ++ htmlEscape config.BuilderRunImage ++ "\n" ++
  (if config.Port = -1 then "" else portEnvBlock (itoa config.Port)) ++ "\n"

/-- Everything of the rendered document after the environment block. -/
def dockerfilePost (cmd : String) : String :=
  "\n" ++ ("\nCMD [\"" ++ htmlEscape cmd ++ "\"]\n") ++ "\n" ++ "COPY . /var/task\n"

/-! ## Claims -/

/-- C1: the claim ("the Dockerfile contains a CMD line iff the handler is
non-empty; an empty handler yields no CMD line") fails on the code. The
template guard reads the key `command`, which the data map does not
define (it defines `cmd`), and `ne` on a missing key holds, so the CMD
line is rendered unconditionally: with an empty handler the document
still contains the line `CMD [""]`. -/
theorem cmd_line_rendered_for_empty_handler :
    generateDockerfile "" cfgEmptyHandler =
      "\nFROM runimage\n\n\n\nCMD [\"\"]\n\nCOPY . /var/task\n"
    ∧ strContains (generateDockerfile "" cfgEmptyHandler) "CMD" = true := by
  constructor
  · decide
  · decide

/-- C2: counterexample to "the Procfile-writing step is a no-op exactly
when a process-declaration file already exists in the working directory".
Here a `Procfile` exists in the working directory, writing is enabled and
a handler was resolved, yet the step is not a no-op: it writes to both
targets, because the code checks for an existing `Procfile` in the
extracted build directory, not in the working directory. -/
theorem procfile_written_despite_workdir_procfile :
    worldProcfile.workdirHasProcfile = true
    ∧ cfgProcfile.WriteProcfile = true
    ∧ worldProcfile.detectedHandler ≠ ""
    ∧ (executeBuilder "build.sh" cfgProcfile worldProcfile).2.procfileWrites =
        [(ProcfileTarget.workingDirectory, "web: app.handler"),
         (ProcfileTarget.buildDirectory, "web: app.handler")] := by
  refine ⟨rfl, rfl, by decide, by decide⟩

/-- C2 (amended): in a run that reaches the Procfile step with both
writes succeeding, the step is a no-op exactly when writing is disabled,
the resolved handler is empty, or a process-declaration file already
exists in the **extracted build directory**; otherwise it writes the
same declaration line to the working directory and the extracted build
directory. -/
theorem procfile_step_noop_iff_builddir (script : String) (config : Config) (w : World)
    (hrun : w.containerRun = some 0) (hmk : w.mkdirTempOk = true) (hzip : w.zipValid = true)
    (hw : w.procfileWorkdirWriteOk = true) (hb : w.procfileBuilddirWriteOk = true) :
    ((executeBuilder script config w).2.procfileWrites = [] ↔
      (config.WriteProcfile = false ∨ w.detectedHandler = "" ∨ w.builddirHasProcfile = true))
    ∧ (config.WriteProcfile = true → w.builddirHasProcfile = false → w.detectedHandler ≠ "" →
        (executeBuilder script config w).2.procfileWrites =
          [(ProcfileTarget.workingDirectory, procfileLine w.detectedHandler),
           (ProcfileTarget.buildDirectory, procfileLine w.detectedHandler)]) := by
  have hstep : (executeBuilder script config w).2.procfileWrites =
      (if config.WriteProcfile = true ∧ w.builddirHasProcfile = false ∧
          w.detectedHandler ≠ "" then
        [(ProcfileTarget.workingDirectory, procfileLine w.detectedHandler),
         (ProcfileTarget.buildDirectory, procfileLine w.detectedHandler)]
       else []) := by
    rw [executeBuilder]
    simp only [executeBuildContainer, hrun, hmk, hzip,
      procfileStage_writes w.detectedHandler config w hw hb]
    simp [imageStage_procfileWrites]
  constructor
  · rw [hstep]
    by_cases hwp : config.WriteProcfile = true <;>
      by_cases hbd : w.builddirHasProcfile = true <;>
      by_cases hh : w.detectedHandler = "" <;>
      simp [hwp, hbd, hh]
  · intro h1 h2 h3
    rw [hstep, if_pos ⟨h1, h2, h3⟩]

/-- C2 witness: a concrete run reaching the step with writing enabled, no
`Procfile` in the extracted build directory and handler `main` writes the
declaration line to both targets. -/
theorem procfile_step_noop_iff_builddir_witness :
    (executeBuilder "s" cfgProcfile worldOk).2.procfileWrites =
      [(ProcfileTarget.workingDirectory, procfileLine "main"),
       (ProcfileTarget.buildDirectory, procfileLine "main")] :=
  (procfile_step_noop_iff_builddir "s" cfgProcfile worldOk rfl rfl rfl rfl rfl).2
    rfl rfl (by decide)

/-- C3: resolution of the build-image and run-image fields follows the
precedence explicit invocation value > `lambda.yml` value > compiled-in
default, whenever the override source is readable (absent or parsed) —
for every configuration, hence for all 2×2×2 presence combinations. -/
theorem image_resolution_precedence (config : Config) (src : LambdaYMLSource)
    (defaultImage : String) (h : parseOk src) :
    getBuildImage config src defaultImage =
      .ok (if config.BuilderBuildImage ≠ "" then config.BuilderBuildImage
           else if (sourceDoc src).BuildImage ≠ "" then (sourceDoc src).BuildImage
           else defaultImage)
    ∧ getRunImage config src defaultImage =
      .ok (if config.BuilderRunImage ≠ "" then config.BuilderRunImage
           else if (sourceDoc src).RunImage ≠ "" then (sourceDoc src).RunImage
           else defaultImage) := by
  have hcase : src = .absent ∨ ∃ doc, src = .parsed doc := h
  rcases hcase with hsrc | ⟨doc, hsrc⟩ <;> subst hsrc <;> constructor <;>
    simp only [getBuildImage, getRunImage, ParseLambdaYML, sourceDoc, LambdaYML.zero] <;>
    split_ifs <;> simp_all

/-- C3 witness: with no explicit invocation images and a parsed override
document carrying both image fields, the document's values win over the
compiled-in default. -/
theorem image_resolution_precedence_witness :
    getBuildImage cfgNoImages (LambdaYMLSource.parsed docImages) "dflt" = .ok "yml-build"
    ∧ getRunImage cfgNoImages (LambdaYMLSource.parsed docImages) "dflt" = .ok "yml-run" := by
  have h := image_resolution_precedence cfgNoImages (.parsed docImages) "dflt"
    (Or.inr ⟨docImages, rfl⟩)
  exact ⟨h.1.trans (congrArg Except.ok (by decide)),
         h.2.trans (congrArg Except.ok (by decide))⟩

/-- C4: the rendered document carries the two fixed-name port environment
lines, both set to the configured port, exactly when `config.Port` is not
the sentinel `-1`: the renderer equals a port-independent shape around a
port block that is empty at the sentinel and is precisely the two `ENV`
lines otherwise — so moving the port off the sentinel adds exactly those
two lines. -/
theorem port_env_lines_iff_port (cmd : String) (config : Config) :
    generateDockerfile cmd config =
      dockerfileShape cmd config.BuilderRunImage config.ImageEnv
        (if config.Port = -1 then "" else portEnvBlock (itoa config.Port))
    ∧ portEnvBlock (itoa config.Port) =
      "\nENV DOCKER_LAMBDA_API_PORT=" ++ htmlEscape (itoa config.Port) ++
      "\nENV DOCKER_LAMBDA_RUNTIME_PORT=" ++ htmlEscape (itoa config.Port) ++ "\n" :=
  ⟨generateDockerfile_shape cmd config, rfl⟩

/-- C5: a sandbox that exits non-zero yields the exit-code-carrying
error from `executeBuildContainer`, which `executeBuilder` returns with
an empty trace — no extraction, no Procfile write, no image build; a
sandbox that fails to launch likewise aborts the pipeline. -/
theorem sandbox_failure_aborts_pipeline (script : String) (config : Config) (w : World)
    (c : Int) (hc : c ≠ 0) :
    (w.containerRun = some c →
      executeBuildContainer script config w = .error (.buildFailed c)
      ∧ executeBuilder script config w = (.failure (.buildFailed c), Trace.empty))
    ∧ (w.containerRun = none →
      executeBuildContainer script config w = .error .buildExecution
      ∧ executeBuilder script config w = (.failure .buildExecution, Trace.empty)) := by
  constructor
  · intro h
    have h1 : executeBuildContainer script config w = .error (.buildFailed c) := by
      simp [executeBuildContainer, h, hc]
    exact ⟨h1, by simp [executeBuilder, h1]⟩
  · intro h
    have h1 : executeBuildContainer script config w = .error .buildExecution := by
      simp [executeBuildContainer, h]
    exact ⟨h1, by simp [executeBuilder, h1]⟩

/-- C5 witness: a sandbox exiting with code 2 aborts the run with the
exit-code-2 error and an empty trace. -/
theorem sandbox_failure_aborts_pipeline_witness :
    executeBuilder "s" cfgEmptyHandler worldExit2 =
      (.failure (.buildFailed 2), Trace.empty) :=
  ((sandbox_failure_aborts_pipeline "s" cfgEmptyHandler worldExit2 2 (by decide)).1 rfl).2

/-- C6: a working directory with no `lambda.yml` makes `ParseLambdaYML`
return the zero-valued override document and no error, while a
`lambda.yml` that cannot be opened, read or parsed as YAML makes it
return an error. -/
theorem parse_lambda_yml_absence_and_errors (config : Config) (m : String) :
    ParseLambdaYML config .absent = .ok LambdaYML.zero
    ∧ ParseLambdaYML config (.openFailure m) = .error ("error opening lambda.yml: " ++ m)
    ∧ ParseLambdaYML config (.readFailure m) = .error ("error reading lambda.yml: " ++ m)
    ∧ ParseLambdaYML config (.unmarshalFailure m) =
        .error ("error unmarshaling lambda.yml: " ++ m) :=
  ⟨rfl, rfl, rfl, rfl⟩

/-- C7: the renderer is deterministic — identical `(handler, config)`
inputs give identical text (it is a pure function of its two arguments) —
and the runtime environment entries appear in the output in the order of
`config.ImageEnv`: the document splits around `envBlock`, which maps the
entries to `ENV` lines head-first. -/
theorem render_pure_and_ordered :
    (∀ cmd₁ cmd₂ (config₁ config₂ : Config), cmd₁ = cmd₂ → config₁ = config₂ →
      generateDockerfile cmd₁ config₁ = generateDockerfile cmd₂ config₂)
    ∧ (∀ cmd config, generateDockerfile cmd config =
        dockerfilePre config ++ envBlock config.ImageEnv ++ dockerfilePost cmd)
    ∧ (∀ e rest, envBlock (e :: rest) = "\nENV " ++ htmlEscape e ++ "\n" ++ envBlock rest)
    ∧ envBlock [] = "" := by
  refine ⟨?_, ?_, fun e rest => rfl, rfl⟩
  · intro _ _ _ _ h1 h2
    rw [h1, h2]
  · intro cmd config
    rw [generateDockerfile_shape, dockerfileShape, dockerfilePre, dockerfilePost,
      String.ext_iff]
    simp [String.data_append]

/-- C7 witness: the determinism component applied at a concrete input. -/
theorem render_pure_and_ordered_witness :
    generateDockerfile "main" cfgEscape = generateDockerfile "main" cfgEscape :=
  render_pure_and_ordered.1 "main" "main" cfgEscape cfgEscape rfl rfl

/-- C8: a sandbox run that succeeds (exit code zero) followed by a
missing, unreadable or corrupt `lambda.zip` (the discarded read error
turns the first two into the third) aborts the pipeline with the
extraction error: extraction was attempted, but no Procfile write and no
image build happens. -/
theorem missing_archive_aborts (script : String) (config : Config) (w : World)
    (hrun : w.containerRun = some 0) (hmk : w.mkdirTempOk = true)
    (hzip : w.zipValid = false) :
    executeBuilder script config w = (.failure .extraction, ⟨true, [], false⟩) := by
  simp [executeBuilder, executeBuildContainer, hrun, hmk, hzip]

/-- C8 witness: the concrete all-good world with an invalid archive. -/
theorem missing_archive_aborts_witness :
    executeBuilder "s" cfgEmptyHandler worldBadZip =
      (.failure .extraction, ⟨true, [], false⟩) :=
  missing_archive_aborts "s" cfgEmptyHandler worldBadZip rfl rfl rfl

/-- C9: the claim ("executeBuilder never panics on its error paths; when
`ioutil.TempFile` fails it returns an error and the deferred temp-file
cleanup is safe") fails on the code: the cleanup
`os.Remove(dockerfilePath.Name())` is deferred before the error check,
so when `TempFile` fails with a nil handle the deferred call dereferences
nil and the invocation panics instead of returning the error. -/
theorem tempfile_failure_panics :
    (executeBuilder "build.sh" cfgEmptyHandler worldTempFileFail).1 = Outcome.panicked := by
  decide

/-- C10: rendering goes through `html/template`, so interpolated values
are HTML-escaped: for the handler `a&b`, the environment entry `A=<b>`
and the run image `img&co`, the document contains the escaped forms and
not the verbatim inputs. -/
theorem rendered_values_html_escaped :
    strContains (generateDockerfile "a&b" cfgEscape) "CMD [\"a&amp;b\"]" = true
    ∧ strContains (generateDockerfile "a&b" cfgEscape) "a&b" = false
    ∧ strContains (generateDockerfile "a&b" cfgEscape) "ENV A=&lt;b&gt;" = true
    ∧ strContains (generateDockerfile "a&b" cfgEscape) "A=<b>" = false
    ∧ strContains (generateDockerfile "a&b" cfgEscape) "FROM img&amp;co" = true
    ∧ strContains (generateDockerfile "a&b" cfgEscape) "img&co" = false := by
  refine ⟨by decide, by decide, by decide, by decide, by decide, by decide⟩

end LambdaBuilder
